import Mathlib

/-
Verification of the RenderScript forEach export pass
(src/slang_rs_export_foreach.cpp) against its specification.

The embedding below transcribes `RSExportForEach::validateAndConstructParams`,
`RSExportForEach::Create` and `RSExportForEach::isGraphicsRootRSFunc` into
executable Lean definitions.  Clang's type machinery is modelled just finely
enough to express every type test the source performs: a canonical type is a
constructor tree (`CType`) and a `QualType` carries the top-level
const-qualifier next to it; a pointer constructor carries the
const-qualification of its pointee, mirroring
`QT->getPointeeType().isConstQualified()`.
-/

namespace SlangForEach

/-- Canonical (unqualified) types, as coarse as the source's type tests need:
`void`, `unsigned int`, `int`, pointers (recording whether the pointee is
const-qualified), and a family of opaque other types. -/
inductive CType where
  | void
  | uint
  | int32
  | ptr (pointeeConst : Bool) (pointee : CType)
  | other (id : Nat)
deriving DecidableEq

/-- A canonical `clang::QualType`: top-level const-qualifier plus the type. -/
structure QualType where
  isConst : Bool
  ty : CType
deriving DecidableEq

/-- The canonical `void` type (`C.VoidTy`), unqualified. -/
def voidQT : QualType := ⟨false, CType.void⟩

/-- The canonical `int` type (`C.IntTy`), unqualified. -/
def intQT : QualType := ⟨false, CType.int32⟩

/-- `QT->isPointerType() && QT->getPointeeType().isConstQualified()`
(the shape required of the `in` and `usrData` parameters). -/
def isConstPointer (qt : QualType) : Bool :=
  match qt.ty with
  | CType.ptr c _ => c
  | _ => false

/-- `QT->isPointerType() && !QT->getPointeeType().isConstQualified()`
(the shape required of the `out` parameter). -/
def isNonConstPointer (qt : QualType) : Bool :=
  match qt.ty with
  | CType.ptr c _ => !c
  | _ => false

/-- A `clang::ParmVarDecl`: its name and canonical type. -/
structure Param where
  name : String
  type : QualType
deriving DecidableEq

/-- A `clang::FunctionDecl`: name, ordered parameter list, canonical result
type. -/
structure FunctionDecl where
  name : String
  params : List Param
  returnType : QualType
deriving DecidableEq

/-- Modelled from the spec: `SLANG_ICS_TARGET_API` lives in `slang_version.h`,
which is not part of the sources under verification.  The spec describes it as
the ABI generation that introduced parameter skipping (and removed the legacy
single-parameter graphics root); only its ordering relative to the other
generation constants matters, the historical numeric value 14 is used. -/
def SLANG_ICS_TARGET_API : Nat := 14

/-- Modelled from the spec: `SLANG_JB_TARGET_API` lives in `slang_version.h`,
which is not part of the sources under verification.  It is the ABI generation
below which only the reserved root function may be a compute kernel; the
historical numeric value 16 is used (all that matters is that it exceeds
`SLANG_ICS_TARGET_API`). -/
def SLANG_JB_TARGET_API : Nat := 16

/-- Modelled from the spec: `isRootRSFunc` is declared in the header (not under
the verified sources); per the spec it is an exact-match check of the
function's name against the reserved graphics-entry-point identifier
`root`. -/
def isRootRSFunc (FD : FunctionDecl) : Bool :=
  FD.name = "root"

/-- The diagnostics `validateAndConstructParams` can emit, one constructor per
report site.  `unexpectedParam` covers both sites that print "Unexpected
kernel %0() parameter '%1' of type '%2'" (the non-uint parameter check and the
coordinate-overflow branch); `duplicateEntry` is `ReportNameError`'s
"Duplicate parameter entry (by position/name): '%0'". -/
inductive Diag where
  | nonRootKernel (fname : String)
  | mustReturnVoid (fname : String)
  | inOutRequired (fname : String)
  | unexpectedParam (fname pname : String)
  | duplicateEntry (pname : String)
  | mayNotSkipParams (fname : String)
deriving DecidableEq

/-- The mutable state threaded through the `while (i < numParams)` loop of
`validateAndConstructParams`: the two coordinate slots, the running `valid`
flag, and the diagnostics emitted so far. -/
structure ScanState where
  mX : Option Param
  mY : Option Param
  valid : Bool
  diags : List Diag
deriving DecidableEq

/-- One iteration of the `while (i < numParams)` loop of
`validateAndConstructParams` (source lines 132-184), processing parameter `p`
of function `fname`. -/
def scanStep (fname : String) (st : ScanState) (p : Param) : ScanState :=
  if p.type.ty ≠ CType.uint then
    { st with valid := false, diags := st.diags ++ [Diag.unexpectedParam fname p.name] }
  else if p.name = "x" then
    if st.mX.isSome then
      { st with valid := false, diags := st.diags ++ [Diag.duplicateEntry p.name] }
    else if st.mY.isSome then
      { st with valid := false, diags := st.diags ++ [Diag.duplicateEntry p.name] }
    else
      { st with mX := some p }
  else if p.name = "y" then
    if st.mY.isSome then
      { st with valid := false, diags := st.diags ++ [Diag.duplicateEntry p.name] }
    else
      { st with mY := some p }
  else
    if st.mX = none ∧ st.mY = none then
      { st with mX := some p }
    else if st.mY = none then
      { st with mY := some p }
    else
      { st with valid := false, diags := st.diags ++ [Diag.unexpectedParam fname p.name] }

/-- The positional-consumption idiom of `validateAndConstructParams`: if the
next parameter exists (`i < numParams`) and its type satisfies `pred`, consume
it (assign the slot and advance `i`); otherwise leave the slot empty and the
cursor where it was. -/
def takeIf (pred : QualType → Bool) (ps : List Param) : Option Param × List Param :=
  match ps with
  | [] => (none, [])
  | q :: t => if pred q.type then (some q, t) else (none, q :: t)

/-- The result of the shape-classification part of
`validateAndConstructParams` (lines 79-184): the five role slots, the `valid`
flag, and the accumulated diagnostics. -/
structure ClassifyResult where
  mIn : Option Param
  mOut : Option Param
  mUsrData : Option Param
  mX : Option Param
  mY : Option Param
  valid : Bool
  diags : List Diag
deriving DecidableEq

/-- Lines 79-184 of `validateAndConstructParams`: the return-type check, the
positional assignment of `mIn` / `mOut` / `mUsrData`, the in-or-out
requirement, and the coordinate scan loop.  `p0 :: rest` is the (non-empty)
parameter list. -/
def classifyShape (fname : String) (retTy : QualType) (p0 : Param) (rest : List Param) :
    ClassifyResult :=
  let v0 : Bool := if retTy = voidQT then true else false
  let d0 : List Diag := if retTy = voidQT then [] else [Diag.mustReturnVoid fname]
  let io := takeIf isConstPointer (p0 :: rest)
  let oo := takeIf isNonConstPointer io.2
  let v1 : Bool := if io.1 = none ∧ oo.1 = none then false else v0
  let d1 : List Diag :=
    if io.1 = none ∧ oo.1 = none then d0 ++ [Diag.inOutRequired fname] else d0
  let uo := takeIf isConstPointer oo.2
  let s := uo.2.foldl (scanStep fname) ⟨none, none, v1, d1⟩
  ⟨io.1, oo.1, uo.1, s.mX, s.mY, s.valid, s.diags⟩

/-- Lines 186-194: the bitwise signature metadata computed from the five role
slots once classification succeeded. -/
def computeMetadata (i o u x y : Option Param) : Nat :=
  (if i.isSome then 0x01 else 0) |||
  (if o.isSome then 0x02 else 0) |||
  (if u.isSome then 0x04 else 0) |||
  (if x.isSome then 0x08 else 0) |||
  (if y.isSome then 0x10 else 0)

/-- Lines 186-194 applied to a classification result: `mSignatureMetadata`
starts at 0 and is filled from the role slots only when `valid` still
holds. -/
def metaOf (c : ClassifyResult) : Nat :=
  if c.valid then computeMetadata c.mIn c.mOut c.mUsrData c.mX c.mY else 0

/-- Lines 196-214: the generation-compatibility post-check.  Returns `true`
when the bitmask passes (no "may not skip parameters" diagnostic): below
`SLANG_ICS_TARGET_API` only the five prefix-complete masks are accepted, at or
above it everything is. -/
def acceptBitmask (targetAPI : Nat) (mask : Nat) : Bool :=
  if targetAPI < SLANG_ICS_TARGET_API then
    if mask = 0x1f ∨ mask = 0x0f ∨ mask = 0x07 ∨ mask = 0x03 ∨ mask = 0x01 then true
    else false
  else true

/-- The observable result of a run of `validateAndConstructParams`: the five
role slots, `mSignatureMetadata`, the returned `valid` flag, and the
diagnostics emitted (in order). -/
structure VResult where
  mIn : Option Param
  mOut : Option Param
  mUsrData : Option Param
  mX : Option Param
  mY : Option Param
  mSignatureMetadata : Nat
  valid : Bool
  diags : List Diag
deriving DecidableEq

/-- `RSExportForEach::validateAndConstructParams` (lines 55-217).  `none`
models the `slangAssert(numParams > 0)` tripping on an empty parameter list (a
caller contract violation, not a diagnostic).  The early `return false` for a
non-root kernel below `SLANG_JB_TARGET_API` leaves every field at its
constructed default (empty slots, metadata 0). -/
def validateAndConstructParams (targetAPI : Nat) (FD : FunctionDecl) : Option VResult :=
  match FD.params with
  | [] => none
  | p0 :: rest =>
    if targetAPI < SLANG_JB_TARGET_API ∧ isRootRSFunc FD = false then
      some ⟨none, none, none, none, none, 0, false, [Diag.nonRootKernel FD.name]⟩
    else
      let c := classifyShape FD.name FD.returnType p0 rest
      if acceptBitmask targetAPI (metaOf c) then
        some ⟨c.mIn, c.mOut, c.mUsrData, c.mX, c.mY, metaOf c, c.valid, c.diags⟩
      else
        some ⟨c.mIn, c.mOut, c.mUsrData, c.mX, c.mY, metaOf c, false,
              c.diags ++ [Diag.mayNotSkipParams FD.name]⟩

/-- The `RSExportForEach` descriptor as observable after `Create`: name, role
slots, signature metadata, whether a parameter-packet (aggregate) type was
synthesized and exported, and the dummy-root flag. -/
structure RSExportForEach where
  name : String
  mIn : Option Param
  mOut : Option Param
  mUsrData : Option Param
  mX : Option Param
  mY : Option Param
  mSignatureMetadata : Nat
  hasParamPacketType : Bool
  mDummyRoot : Bool
deriving DecidableEq

/-- `RSExportForEach::Create` (lines 219-304).  `exportOk` abstracts
`RSExportType::Create` succeeding on the synthesized parameter-packet record
(as a predicate on the `usrData` pointee type); the export of the `mIn` /
`mOut` element types (lines 293-301) is external and affects neither the
returned pointer's nullity nor any field modelled here, so it is not
represented.  `none` models returning `NULL` as well as the `slangAssert`s on
an empty function name and on a non-const-pointer `usrData` tripping. -/
def Create (targetAPI : Nat) (exportOk : CType → Bool) (FD : FunctionDecl) :
    Option RSExportForEach :=
  if FD.name = "" then none
  else
    match validateAndConstructParams targetAPI FD with
    | none => none
    | some r =>
      if r.valid = false then none
      else
        let FE : RSExportForEach :=
          ⟨FD.name, r.mIn, r.mOut, r.mUsrData, r.mX, r.mY, r.mSignatureMetadata, false, false⟩
        match r.mUsrData with
        | none => some FE
        | some p =>
          match p.type.ty with
          | CType.ptr true pointee =>
            if pointee = CType.void then some { FE with mUsrData := none }
            else if exportOk pointee then some { FE with hasParamPacketType := true }
            else none
          | _ => none

/-- `RSExportForEach::CreateDummyRoot` (lines 306-312). -/
def CreateDummyRoot : RSExportForEach :=
  ⟨"root", none, none, none, none, none, 0, false, true⟩

/-- Whether the classifier assigned a `usrData` slot whose pointee is the
canonical `void` type (the case `Create` silently clears, lines 246-250). -/
def usrDataPointeeIsVoid (r : VResult) : Bool :=
  match r.mUsrData with
  | some p =>
    match p.type.ty with
    | CType.ptr _ pointee => if pointee = CType.void then true else false
    | _ => false
  | none => false

/-- `RSExportForEach::isGraphicsRootRSFunc` (lines 314-334). -/
def isGraphicsRootRSFunc (targetAPI : Nat) (FD : FunctionDecl) : Bool :=
  if isRootRSFunc FD = false then false
  else if FD.params.length = 0 then true
  else if targetAPI < SLANG_ICS_TARGET_API ∧ FD.params.length = 1 then
    if FD.returnType = intQT then true else false
  else false

/-! ### Helper lemmas about the coordinate scan and the classifier pipeline -/

/-- The diagnostics the coordinate-scan loop can emit. -/
def isScanDiag (d : Diag) : Bool :=
  match d with
  | Diag.unexpectedParam _ _ => true
  | Diag.duplicateEntry _ => true
  | _ => false

/-! ### Concrete declarations used as counterexamples and witnesses -/

/-- A parameter of canonical type `unsigned int`. -/
def uintParam (n : String) : Param := ⟨n, ⟨false, CType.uint⟩⟩

/-- A parameter of canonical type pointer-to-const-`t`. -/
def constPtrParam (n : String) (t : CType) : Param := ⟨n, ⟨false, CType.ptr true t⟩⟩

/-- A parameter of canonical type pointer-to-non-const-`t`. -/
def outPtrParam (n : String) (t : CType) : Param := ⟨n, ⟨false, CType.ptr false t⟩⟩

/-- An export oracle under which `RSExportType::Create` always succeeds. -/
def exportAlwaysOk : CType → Bool := fun _ => true

/-- `void foo(const A *a, B *b, const void *u)`: a kernel whose `usrData`
pointee is canonical `void`. -/
def fdC1 : FunctionDecl :=
  ⟨"foo", [constPtrParam "a" (CType.other 0), outPtrParam "b" (CType.other 1),
           constPtrParam "u" CType.void], voidQT⟩

/-- The descriptor `Create` builds for `fdC1` at target API 16. -/
def dC1 : RSExportForEach :=
  ⟨"foo", some (constPtrParam "a" (CType.other 0)), some (outPtrParam "b" (CType.other 1)),
   none, none, none, 0x07, false, false⟩

/-- The classification result for `fdC1` at target API 16 (before `Create`
clears the void-pointee `usrData` slot). -/
def rC1 : VResult :=
  ⟨some (constPtrParam "a" (CType.other 0)), some (outPtrParam "b" (CType.other 1)),
   some (constPtrParam "u" CType.void), none, none, 0x07, true, []⟩

/-- `void foo(unsigned int z)`: neither `in` nor `out` can be assigned. -/
def fdC2 : FunctionDecl := ⟨"foo", [uintParam "z"], voidQT⟩

/-- The classification result for `fdC2` at target API 16. -/
def rC2 : VResult :=
  ⟨none, none, none, some (uintParam "z"), none, 0, false, [Diag.inOutRequired "foo"]⟩

/-- `void foo(const A *a, unsigned int y, unsigned int z)`: an other-named
unsigned parameter arriving while `y` is taken but `x` is still empty. -/
def fdC3 : FunctionDecl :=
  ⟨"foo", [constPtrParam "a" (CType.other 0), uintParam "y", uintParam "z"], voidQT⟩

/-- The classification result for `fdC3` at target API 16. -/
def rC3 : VResult :=
  ⟨some (constPtrParam "a" (CType.other 0)), none, none, none, some (uintParam "y"),
   0, false, [Diag.unexpectedParam "foo" "z"]⟩

/-- `void root(const A *a, B *b, unsigned int z)`: classifies cleanly to
bitmask 0x0B, which an old-generation target then rejects. -/
def fdC4 : FunctionDecl :=
  ⟨"root", [constPtrParam "a" (CType.other 0), outPtrParam "b" (CType.other 1),
            uintParam "z"], voidQT⟩

/-- The classification result for `fdC4` at target API 11. -/
def rC4 : VResult :=
  ⟨some (constPtrParam "a" (CType.other 0)), some (outPtrParam "b" (CType.other 1)),
   none, some (uintParam "z"), none, 0x0B, false, [Diag.mayNotSkipParams "root"]⟩

/-- `void root(unsigned int z)`: fails the in-or-out requirement, leaving the
bitmask 0 for the old-generation post-check to reject a second time. -/
def fdC9 : FunctionDecl := ⟨"root", [uintParam "z"], voidQT⟩

/-- The classification result for `fdC9` at target API 11. -/
def rC9 : VResult :=
  ⟨none, none, none, some (uintParam "z"), none, 0, false,
   [Diag.inOutRequired "root", Diag.mayNotSkipParams "root"]⟩

/-- A zero-parameter function declaration. -/
def fdC10 : FunctionDecl := ⟨"foo", [], voidQT⟩

theorem scanStep_valid_false (f : String) (st : ScanState) (p : Param)
    (h : st.valid = false) : (scanStep f st p).valid = false := by
  unfold scanStep
  repeat' split
  all_goals simp [h]

theorem foldl_scanStep_valid_false (f : String) (ps : List Param) (st : ScanState)
    (h : st.valid = false) : (ps.foldl (scanStep f) st).valid = false := by
  induction ps generalizing st with
  | nil => simpa using h
  | cons p ps ih => exact ih _ (scanStep_valid_false f st p h)

theorem scanStep_diags_mem (f : String) (st : ScanState) (p : Param) (d : Diag)
    (h : d ∈ st.diags) : d ∈ (scanStep f st p).diags := by
  unfold scanStep
  repeat' split
  all_goals simp [h]

theorem foldl_scanStep_diags_mem (f : String) (ps : List Param) (st : ScanState) (d : Diag)
    (h : d ∈ st.diags) : d ∈ (ps.foldl (scanStep f) st).diags := by
  induction ps generalizing st with
  | nil => simpa using h
  | cons p ps ih => exact ih _ (scanStep_diags_mem f st p d h)

theorem scanStep_diags_rev (f : String) (st : ScanState) (p : Param) (d : Diag)
    (h : d ∈ (scanStep f st p).diags) : d ∈ st.diags ∨ isScanDiag d = true := by
  unfold scanStep at h
  repeat' split at h
  all_goals simp at h
  all_goals try (exact Or.inl h)
  all_goals rcases h with h | h
  all_goals try (exact Or.inl h)
  all_goals subst h
  all_goals simp [isScanDiag]

theorem foldl_scanStep_diags_rev (f : String) (ps : List Param) (st : ScanState) (d : Diag)
    (h : d ∈ (ps.foldl (scanStep f) st).diags) : d ∈ st.diags ∨ isScanDiag d = true := by
  induction ps generalizing st with
  | nil => exact Or.inl (by simpa using h)
  | cons p ps ih =>
    rcases ih _ (by simpa using h) with h' | h'
    · exact scanStep_diags_rev f st p d h'
    · exact Or.inr h'

theorem computeMetadata_testBit (i o u x y : Option Param) :
    (computeMetadata i o u x y).testBit 0 = i.isSome ∧
    (computeMetadata i o u x y).testBit 1 = o.isSome ∧
    (computeMetadata i o u x y).testBit 2 = u.isSome ∧
    (computeMetadata i o u x y).testBit 3 = x.isSome ∧
    (computeMetadata i o u x y).testBit 4 = y.isSome := by
  cases i <;> cases o <;> cases u <;> cases x <;> cases y <;>
    simp only [computeMetadata, Option.isSome_some, Option.isSome_none] <;> decide

theorem vacp_cons (t : Nat) (n : String) (p0 : Param) (rest : List Param) (ret : QualType)
    (hgate : ¬(t < SLANG_JB_TARGET_API ∧ isRootRSFunc ⟨n, p0 :: rest, ret⟩ = false)) :
    validateAndConstructParams t ⟨n, p0 :: rest, ret⟩ =
      (if acceptBitmask t (metaOf (classifyShape n ret p0 rest)) then
        some ⟨(classifyShape n ret p0 rest).mIn, (classifyShape n ret p0 rest).mOut,
              (classifyShape n ret p0 rest).mUsrData, (classifyShape n ret p0 rest).mX,
              (classifyShape n ret p0 rest).mY, metaOf (classifyShape n ret p0 rest),
              (classifyShape n ret p0 rest).valid, (classifyShape n ret p0 rest).diags⟩
      else
        some ⟨(classifyShape n ret p0 rest).mIn, (classifyShape n ret p0 rest).mOut,
              (classifyShape n ret p0 rest).mUsrData, (classifyShape n ret p0 rest).mX,
              (classifyShape n ret p0 rest).mY, metaOf (classifyShape n ret p0 rest),
              false, (classifyShape n ret p0 rest).diags ++ [Diag.mayNotSkipParams n]⟩) := by
  simp only [validateAndConstructParams, if_neg hgate]

theorem vacp_inversion (t : Nat) (n : String) (p0 : Param) (rest : List Param) (ret : QualType)
    (r : VResult)
    (hgate : ¬(t < SLANG_JB_TARGET_API ∧ isRootRSFunc ⟨n, p0 :: rest, ret⟩ = false))
    (h : validateAndConstructParams t ⟨n, p0 :: rest, ret⟩ = some r) :
    (acceptBitmask t (metaOf (classifyShape n ret p0 rest)) = true ∧
      r = ⟨(classifyShape n ret p0 rest).mIn, (classifyShape n ret p0 rest).mOut,
            (classifyShape n ret p0 rest).mUsrData, (classifyShape n ret p0 rest).mX,
            (classifyShape n ret p0 rest).mY, metaOf (classifyShape n ret p0 rest),
            (classifyShape n ret p0 rest).valid, (classifyShape n ret p0 rest).diags⟩) ∨
    (acceptBitmask t (metaOf (classifyShape n ret p0 rest)) = false ∧
      r = ⟨(classifyShape n ret p0 rest).mIn, (classifyShape n ret p0 rest).mOut,
            (classifyShape n ret p0 rest).mUsrData, (classifyShape n ret p0 rest).mX,
            (classifyShape n ret p0 rest).mY, metaOf (classifyShape n ret p0 rest),
            false, (classifyShape n ret p0 rest).diags ++ [Diag.mayNotSkipParams n]⟩) := by
  rw [vacp_cons t n p0 rest ret hgate] at h
  split at h
  · left
    exact ⟨by assumption, (Option.some.injEq _ _ ▸ h).symm⟩
  · right
    refine ⟨by simpa using (by assumption : ¬acceptBitmask t _ = true), ?_⟩
    exact (Option.some.injEq _ _ ▸ h).symm

theorem acceptBitmask_0x1f (t : Nat) : acceptBitmask t 0x1f = true := by
  unfold acceptBitmask
  split
  · decide
  · rfl

theorem vacp_valid_meta (t : Nat) (FD : FunctionDecl) (r : VResult)
    (h : validateAndConstructParams t FD = some r) (hv : r.valid = true) :
    r.mSignatureMetadata = computeMetadata r.mIn r.mOut r.mUsrData r.mX r.mY := by
  obtain ⟨n, ps, ret⟩ := FD
  cases ps with
  | nil => simp [validateAndConstructParams] at h
  | cons p0 rest =>
    by_cases hgate : t < SLANG_JB_TARGET_API ∧ isRootRSFunc ⟨n, p0 :: rest, ret⟩ = false
    · simp only [validateAndConstructParams, if_pos hgate, Option.some.injEq] at h
      subst h
      simp at hv
    · rcases vacp_inversion t n p0 rest ret r hgate h with ⟨_, rfl⟩ | ⟨_, rfl⟩
      · simp only [metaOf] at hv ⊢
        rw [if_pos hv]
      · simp at hv

theorem classifyShape_noInOut (n : String) (ret : QualType) (p0 : Param) (rest : List Param)
    (hin : (classifyShape n ret p0 rest).mIn = none)
    (hout : (classifyShape n ret p0 rest).mOut = none) :
    (classifyShape n ret p0 rest).valid = false ∧
    Diag.inOutRequired n ∈ (classifyShape n ret p0 rest).diags ∧
    (Diag.mustReturnVoid n ∈ (classifyShape n ret p0 rest).diags ↔ ret ≠ voidQT) := by
  simp only [classifyShape] at hin hout ⊢
  rw [if_pos ⟨hin, hout⟩, if_pos ⟨hin, hout⟩]
  refine ⟨foldl_scanStep_valid_false _ _ _ rfl, ?_, ?_⟩
  · exact foldl_scanStep_diags_mem _ _ _ _ (by simp)
  · constructor
    · intro hmem
      rcases foldl_scanStep_diags_rev _ _ _ _ hmem with h' | h'
      · intro hret
        rw [if_pos hret] at h'
        simp at h'
      · simp [isScanDiag] at h'
    · intro hret
      refine foldl_scanStep_diags_mem _ _ _ _ ?_
      rw [if_neg hret]
      simp

/-! ### Claim C1 -/

/-- Claim C1 counterexample: for `void foo(const A *a, B *b, const void *u)`
at target API 16, `Create` returns a non-null descriptor whose `UserData` slot
was cleared (the pointee is canonical `void`) while bit 0x04 of
`signatureMetadata` remains set — so the bitmask does not have bit 0x04 set
iff the `UserData` slot is non-empty. -/
theorem C1_counterexample :
    Create 16 exportAlwaysOk fdC1 = some dC1 ∧ dC1.mUsrData = none ∧
    dC1.mSignatureMetadata.testBit 2 = true := by
  decide

/-- Claim C1, amended: for every descriptor returned non-null by `Create`,
bits 0x01, 0x02, 0x08 and 0x10 of `signatureMetadata` mirror the
non-emptiness of the Input, Output, CoordX and CoordY slots, and bit 0x04
mirrors the `UserData` slot *as assigned by classification*: when `Create`
clears `UserData` because its pointee is the canonical void type, the slot
becomes empty but bit 0x04 remains set; in every other case bit 0x04 too
mirrors the descriptor's slot. -/
theorem C1_amended (t : Nat) (ex : CType → Bool) (FD : FunctionDecl)
    (d : RSExportForEach) (r : VResult)
    (hd : Create t ex FD = some d) (hr : validateAndConstructParams t FD = some r) :
    d.mSignatureMetadata.testBit 0 = d.mIn.isSome ∧
    d.mSignatureMetadata.testBit 1 = d.mOut.isSome ∧
    d.mSignatureMetadata.testBit 3 = d.mX.isSome ∧
    d.mSignatureMetadata.testBit 4 = d.mY.isSome ∧
    d.mSignatureMetadata.testBit 2 = r.mUsrData.isSome ∧
    d.mUsrData = (if usrDataPointeeIsVoid r then none else r.mUsrData) := by
  by_cases hname : FD.name = ""
  · simp [Create, hname] at hd
  · have hv : r.valid = true := by
      by_contra hv
      have hv' : r.valid = false := by revert hv; cases r.valid <;> simp
      simp [Create, hname, hr, hv'] at hd
    have hmeta := vacp_valid_meta t FD r hr hv
    obtain ⟨b0, b1, b2, b3, b4⟩ := computeMetadata_testBit r.mIn r.mOut r.mUsrData r.mX r.mY
    have bit0 : r.mSignatureMetadata.testBit 0 = r.mIn.isSome := by rw [hmeta]; exact b0
    have bit1 : r.mSignatureMetadata.testBit 1 = r.mOut.isSome := by rw [hmeta]; exact b1
    have bit2 : r.mSignatureMetadata.testBit 2 = r.mUsrData.isSome := by rw [hmeta]; exact b2
    have bit3 : r.mSignatureMetadata.testBit 3 = r.mX.isSome := by rw [hmeta]; exact b3
    have bit4 : r.mSignatureMetadata.testBit 4 = r.mY.isSome := by rw [hmeta]; exact b4
    cases hu : r.mUsrData with
    | none =>
      rw [hu] at bit2
      simp [Create, hname, hr, hv, hu] at hd
      subst hd
      exact ⟨bit0, bit1, bit3, bit4, bit2, by simp [usrDataPointeeIsVoid, hu]⟩
    | some p =>
      rw [hu] at bit2
      cases hty : p.type.ty with
      | void => simp [Create, hname, hr, hv, hu, hty] at hd
      | uint => simp [Create, hname, hr, hv, hu, hty] at hd
      | int32 => simp [Create, hname, hr, hv, hu, hty] at hd
      | other pid => simp [Create, hname, hr, hv, hu, hty] at hd
      | ptr c pe =>
        cases c with
        | false => simp [Create, hname, hr, hv, hu, hty] at hd
        | true =>
          by_cases hvoid : pe = CType.void
          · simp [Create, hname, hr, hv, hu, hty, hvoid] at hd
            subst hd
            exact ⟨bit0, bit1, bit3, bit4, bit2,
              by simp [usrDataPointeeIsVoid, hu, hty, hvoid]⟩
          · by_cases hex : ex pe = true
            · simp [Create, hname, hr, hv, hu, hty, hvoid, hex] at hd
              subst hd
              exact ⟨bit0, bit1, bit3, bit4, bit2,
                by simp [usrDataPointeeIsVoid, hu, hty, hvoid]⟩
            · simp [Create, hname, hr, hv, hu, hty, hvoid, hex] at hd

/-- Claim C1 witness: the amended theorem applied to `fdC1`, whose descriptor
keeps bit 0x04 set while its cleared `UserData` slot is empty. -/
theorem C1_witness :
    dC1.mSignatureMetadata.testBit 0 = dC1.mIn.isSome ∧
    dC1.mSignatureMetadata.testBit 1 = dC1.mOut.isSome ∧
    dC1.mSignatureMetadata.testBit 3 = dC1.mX.isSome ∧
    dC1.mSignatureMetadata.testBit 4 = dC1.mY.isSome ∧
    dC1.mSignatureMetadata.testBit 2 = rC1.mUsrData.isSome ∧
    dC1.mUsrData = (if usrDataPointeeIsVoid rC1 then none else rC1.mUsrData) :=
  C1_amended 16 exportAlwaysOk fdC1 dC1 rC1 (by decide) (by decide)

/-! ### Claim C2 -/

/-- Claim C2 counterexample: for `void foo(unsigned int z)` at target API 16,
classification records the in-or-out error, yet the coordinate scan is NOT
skipped: the remaining parameter `z` is still scanned and assigned to the
CoordX slot, contradicting "further parameter scanning for roles (UserData,
CoordX, CoordY) is skipped". -/
theorem C2_counterexample :
    validateAndConstructParams 16 fdC2 = some rC2 ∧
    rC2.mX = some (uintParam "z") ∧ rC2.diags = [Diag.inOutRequired "foo"] := by
  decide

/-- Claim C2, amended: when neither `Input` nor `Output` is assigned,
classification records the "must have at least one parameter for in or out"
error and treats it as fatal for the function (the run fails and
`signatureMetadata` is left 0), while the return-type check already performed
is not retracted; however, scanning of the remaining parameters continues (the
CoordX/CoordY slots are still filled by the coordinate scan rather than being
skipped). -/
theorem C2_amended (t : Nat) (n : String) (p0 : Param) (rest : List Param)
    (ret : QualType) (r : VResult)
    (hgate : ¬(t < SLANG_JB_TARGET_API ∧ isRootRSFunc ⟨n, p0 :: rest, ret⟩ = false))
    (h : validateAndConstructParams t ⟨n, p0 :: rest, ret⟩ = some r)
    (hin : r.mIn = none) (hout : r.mOut = none) :
    Diag.inOutRequired n ∈ r.diags ∧ r.valid = false ∧ r.mSignatureMetadata = 0 ∧
    (Diag.mustReturnVoid n ∈ r.diags ↔ ret ≠ voidQT) ∧
    r.mX = (classifyShape n ret p0 rest).mX ∧
    r.mY = (classifyShape n ret p0 rest).mY := by
  rcases vacp_inversion t n p0 rest ret r hgate h with ⟨hacc, rfl⟩ | ⟨hacc, rfl⟩ <;>
    simp only at hin hout ⊢ <;>
    obtain ⟨hval, hio, hmrv⟩ := classifyShape_noInOut n ret p0 rest hin hout
  · exact ⟨hio, hval, by simp [metaOf, hval], hmrv, trivial, trivial⟩
  · refine ⟨by simp [hio], trivial, by simp [metaOf, hval], ?_, trivial, trivial⟩
    rw [← hmrv]
    simp

/-- Claim C2 witness: the amended theorem applied to `fdC2` at target API
16. -/
theorem C2_witness :
    Diag.inOutRequired "foo" ∈ rC2.diags ∧ rC2.valid = false ∧
    rC2.mSignatureMetadata = 0 ∧
    (Diag.mustReturnVoid "foo" ∈ rC2.diags ↔ voidQT ≠ voidQT) ∧
    rC2.mX = (classifyShape "foo" voidQT (uintParam "z") []).mX ∧
    rC2.mY = (classifyShape "foo" voidQT (uintParam "z") []).mY :=
  C2_amended 16 "foo" (uintParam "z") [] voidQT rC2
    (by decide) (by decide) (by decide) (by decide)

/-! ### Claim C3 -/

/-- Claim C3 counterexample: in `void foo(const A *a, unsigned int y,
unsigned int z)` at target API 16, when `z` is scanned the CoordX slot is
empty but CoordY is already assigned; the claim says `z` is then assigned to
CoordX, but the code instead leaves CoordX empty and emits the "unexpected
parameter" error. -/
theorem C3_counterexample :
    validateAndConstructParams 16 fdC3 = some rC3 ∧
    rC3.mX = none ∧ rC3.diags = [Diag.unexpectedParam "foo" "z"] := by
  decide

/-- Claim C3, amended: during the coordinate scan, an unsigned-integer
parameter whose name is neither "x" nor "y" is assigned to CoordX only when
BOTH coordinate slots are empty; otherwise it is assigned to CoordY if CoordY
is empty; otherwise (CoordY already assigned, whether or not CoordX is empty)
the "unexpected parameter" error is triggered.  In particular such a parameter
is NOT assigned to an empty CoordX when CoordY is already taken. -/
theorem C3_amended (f : String) (st : ScanState) (p : Param)
    (hty : p.type.ty = CType.uint) (hx : p.name ≠ "x") (hy : p.name ≠ "y") :
    (st.mX = none → st.mY = none → scanStep f st p = { st with mX := some p }) ∧
    (st.mX ≠ none → st.mY = none → scanStep f st p = { st with mY := some p }) ∧
    (st.mY ≠ none → scanStep f st p =
      { st with valid := false, diags := st.diags ++ [Diag.unexpectedParam f p.name] }) := by
  unfold scanStep
  rw [if_neg (by simp [hty]), if_neg hx, if_neg hy]
  refine ⟨?_, ?_, ?_⟩
  · intro h1 h2
    rw [if_pos ⟨h1, h2⟩]
  · intro h1 h2
    rw [if_neg (by tauto), if_pos h2]
  · intro h1
    rw [if_neg (by tauto), if_neg h1]

/-- Claim C3 witness: the amended theorem applied to the scan state in which
CoordY holds `y` and CoordX is empty, on parameter `z`. -/
theorem C3_witness :
    scanStep "foo" ⟨none, some (uintParam "y"), true, []⟩ (uintParam "z") =
      ⟨none, some (uintParam "y"), false, [Diag.unexpectedParam "foo" "z"]⟩ := by
  have h := (C3_amended "foo" ⟨none, some (uintParam "y"), true, []⟩ (uintParam "z")
    rfl (by decide) (by decide)).2.2 (by decide)
  exact h.trans (by decide)

/-! ### Claim C4 -/

/-- Claim C4 counterexample: `void root(const A *a, B *b, unsigned int z)` at
target API 11 classifies cleanly to bitmask 0x0B, then fails the
generation-compatibility check; the run fails, yet `signatureMetadata` is left
at 0x0B, not 0 — contradicting "left at 0" for a run that fails with a
generation-compatibility rejection. -/
theorem C4_counterexample :
    validateAndConstructParams 11 fdC4 = some rC4 ∧
    rC4.valid = false ∧ rC4.mSignatureMetadata = 0x0B := by
  decide

/-- Claim C4, amended: `signatureMetadata` is left at 0 exactly when an error
was recorded before the bitmask computation (return type, in-or-out,
unexpected/duplicate parameter); when classification up to that point recorded
no error, the bitmask is computed from the role slots and retains that value
even if the subsequent generation-compatibility check fails the run. -/
theorem C4_amended (t : Nat) (n : String) (p0 : Param) (rest : List Param)
    (ret : QualType) (r : VResult)
    (hgate : ¬(t < SLANG_JB_TARGET_API ∧ isRootRSFunc ⟨n, p0 :: rest, ret⟩ = false))
    (h : validateAndConstructParams t ⟨n, p0 :: rest, ret⟩ = some r) :
    ((classifyShape n ret p0 rest).valid = false → r.mSignatureMetadata = 0) ∧
    ((classifyShape n ret p0 rest).valid = true →
      r.mSignatureMetadata =
        computeMetadata (classifyShape n ret p0 rest).mIn (classifyShape n ret p0 rest).mOut
          (classifyShape n ret p0 rest).mUsrData (classifyShape n ret p0 rest).mX
          (classifyShape n ret p0 rest).mY) := by
  rcases vacp_inversion t n p0 rest ret r hgate h with ⟨_, rfl⟩ | ⟨_, rfl⟩ <;>
    exact ⟨fun hv => by simp [metaOf, hv], fun hv => by simp [metaOf, hv]⟩

/-- Claim C4 witness: the amended theorem applied to `fdC4` at target API 11,
whose clean classification keeps bitmask 0x0B through the failed
generation check. -/
theorem C4_witness :
    ((classifyShape "root" voidQT (constPtrParam "a" (CType.other 0))
        [outPtrParam "b" (CType.other 1), uintParam "z"]).valid = false →
      rC4.mSignatureMetadata = 0) ∧
    ((classifyShape "root" voidQT (constPtrParam "a" (CType.other 0))
        [outPtrParam "b" (CType.other 1), uintParam "z"]).valid = true →
      rC4.mSignatureMetadata =
        computeMetadata
          (classifyShape "root" voidQT (constPtrParam "a" (CType.other 0))
            [outPtrParam "b" (CType.other 1), uintParam "z"]).mIn
          (classifyShape "root" voidQT (constPtrParam "a" (CType.other 0))
            [outPtrParam "b" (CType.other 1), uintParam "z"]).mOut
          (classifyShape "root" voidQT (constPtrParam "a" (CType.other 0))
            [outPtrParam "b" (CType.other 1), uintParam "z"]).mUsrData
          (classifyShape "root" voidQT (constPtrParam "a" (CType.other 0))
            [outPtrParam "b" (CType.other 1), uintParam "z"]).mX
          (classifyShape "root" voidQT (constPtrParam "a" (CType.other 0))
            [outPtrParam "b" (CType.other 1), uintParam "z"]).mY) :=
  C4_amended 11 "root" (constPtrParam "a" (CType.other 0))
    [outPtrParam "b" (CType.other 1), uintParam "z"] voidQT rC4 (by decide) (by decide)

/-! ### Claim C5 -/

/-- Claim C5: below the generation that introduced parameter skipping, a
bitmask passes the generation-compatibility check iff it is one of 0x01, 0x03,
0x07, 0x0F, 0x1F; at or above that generation, every bitmask is accepted. -/
theorem C5_prop (t m : Nat) :
    (t < SLANG_ICS_TARGET_API →
      (acceptBitmask t m = true ↔
        (m = 0x01 ∨ m = 0x03 ∨ m = 0x07 ∨ m = 0x0F ∨ m = 0x1F))) ∧
    (SLANG_ICS_TARGET_API ≤ t → acceptBitmask t m = true) := by
  constructor
  · intro ht
    unfold acceptBitmask
    rw [if_pos ht]
    split
    · simp only [iff_true]
      tauto
    · simp only [Bool.false_eq_true, false_iff]
      tauto
  · intro ht
    unfold acceptBitmask
    rw [if_neg (by omega)]

/-- Claim C5 witness: 0x07 is accepted and 0x0B rejected at target API 11
(below the skipping generation); 0x0B is accepted at API 14. -/
theorem C5_witness :
    acceptBitmask 11 0x07 = true ∧ acceptBitmask 11 0x0B ≠ true ∧
    acceptBitmask 14 0x0B = true := by
  refine ⟨((C5_prop 11 0x07).1 (by decide)).mpr (by decide), ?_,
    (C5_prop 14 0x0B).2 (by decide)⟩
  intro hacc
  exact absurd (((C5_prop 11 0x0B).1 (by decide)).mp hacc) (by decide)

/-! ### Claim C6 -/

/-- Claim C6: every void-returning parameter list of the shape (pointer to
const pointee, pointer to non-const pointee, pointer to const pointee,
unsigned int named "x", unsigned int named "y") classifies successfully with
`signatureMetadata` 0x1F and the five role slots Input, Output, UserData,
CoordX, CoordY populated by the parameters in that positional order.  (The
target API is taken at or above `SLANG_JB_TARGET_API`: below it the driver's
non-root gate — which the spec places before classification starts — rejects
non-root functions outright.) -/
theorem C6_prop (t : Nat) (ht : SLANG_JB_TARGET_API ≤ t) (fname nA nB nC : String)
    (qA qB qC qx qy : Bool) (tA tB tC : CType) :
    validateAndConstructParams t
      ⟨fname, [⟨nA, ⟨qA, CType.ptr true tA⟩⟩, ⟨nB, ⟨qB, CType.ptr false tB⟩⟩,
               ⟨nC, ⟨qC, CType.ptr true tC⟩⟩, ⟨"x", ⟨qx, CType.uint⟩⟩,
               ⟨"y", ⟨qy, CType.uint⟩⟩], voidQT⟩ =
      some ⟨some ⟨nA, ⟨qA, CType.ptr true tA⟩⟩, some ⟨nB, ⟨qB, CType.ptr false tB⟩⟩,
            some ⟨nC, ⟨qC, CType.ptr true tC⟩⟩, some ⟨"x", ⟨qx, CType.uint⟩⟩,
            some ⟨"y", ⟨qy, CType.uint⟩⟩, 0x1F, true, []⟩ := by
  have hgate : ¬(t < SLANG_JB_TARGET_API ∧
      isRootRSFunc ⟨fname, [⟨nA, ⟨qA, CType.ptr true tA⟩⟩, ⟨nB, ⟨qB, CType.ptr false tB⟩⟩,
        ⟨nC, ⟨qC, CType.ptr true tC⟩⟩, ⟨"x", ⟨qx, CType.uint⟩⟩,
        ⟨"y", ⟨qy, CType.uint⟩⟩], voidQT⟩ = false) :=
    fun hc => absurd hc.1 (by omega)
  rw [vacp_cons t fname _ _ voidQT hgate]
  have hcs : classifyShape fname voidQT ⟨nA, ⟨qA, CType.ptr true tA⟩⟩
      [⟨nB, ⟨qB, CType.ptr false tB⟩⟩, ⟨nC, ⟨qC, CType.ptr true tC⟩⟩,
       ⟨"x", ⟨qx, CType.uint⟩⟩, ⟨"y", ⟨qy, CType.uint⟩⟩] =
      ⟨some ⟨nA, ⟨qA, CType.ptr true tA⟩⟩, some ⟨nB, ⟨qB, CType.ptr false tB⟩⟩,
       some ⟨nC, ⟨qC, CType.ptr true tC⟩⟩, some ⟨"x", ⟨qx, CType.uint⟩⟩,
       some ⟨"y", ⟨qy, CType.uint⟩⟩, true, []⟩ := rfl
  rw [hcs]
  have hm : metaOf ⟨some ⟨nA, ⟨qA, CType.ptr true tA⟩⟩, some ⟨nB, ⟨qB, CType.ptr false tB⟩⟩,
      some ⟨nC, ⟨qC, CType.ptr true tC⟩⟩, some ⟨"x", ⟨qx, CType.uint⟩⟩,
      some ⟨"y", ⟨qy, CType.uint⟩⟩, true, []⟩ = 0x1f := by
    simp [metaOf, computeMetadata]
  rw [hm, acceptBitmask_0x1f]
  simp

/-- Claim C6 witness: the theorem applied at target API 16 to
`void foo(const A *a, B *b, const C *u, unsigned int x, unsigned int y)`. -/
theorem C6_witness :
    validateAndConstructParams 16
      ⟨"foo", [constPtrParam "a" (CType.other 0), outPtrParam "b" (CType.other 1),
               constPtrParam "u" (CType.other 2), uintParam "x", uintParam "y"], voidQT⟩ =
      some ⟨some (constPtrParam "a" (CType.other 0)), some (outPtrParam "b" (CType.other 1)),
            some (constPtrParam "u" (CType.other 2)), some (uintParam "x"),
            some (uintParam "y"), 0x1F, true, []⟩ :=
  C6_prop 16 (by decide) "foo" "a" "b" "u" false false false false false
    (CType.other 0) (CType.other 1) (CType.other 2)

/-! ### Claim C7 -/

/-- Claim C7: during the coordinate scan, an unsigned-integer parameter named
exactly "x" is rejected with the duplicate-entry error whenever CoordX is
already assigned — however it came to be assigned, positionally or by name —
and also whenever CoordY is already assigned while CoordX is still empty. -/
theorem C7_prop (f : String) (st : ScanState) (p : Param)
    (hty : p.type.ty = CType.uint) (hname : p.name = "x")
    (hdup : st.mX.isSome = true ∨ st.mY.isSome = true) :
    scanStep f st p =
      { st with valid := false, diags := st.diags ++ [Diag.duplicateEntry p.name] } := by
  unfold scanStep
  rw [if_neg (by simp [hty]), if_pos hname]
  by_cases hx : st.mX.isSome = true
  · rw [if_pos hx]
  · rw [if_neg hx, if_pos (hdup.resolve_left hx)]

/-- Claim C7 witness: a parameter named "x" arriving while CoordX already
holds the positionally-assigned parameter `a` is rejected as a duplicate. -/
theorem C7_witness :
    scanStep "foo" ⟨some (uintParam "a"), none, true, []⟩ (uintParam "x") =
      ⟨some (uintParam "a"), none, false, [Diag.duplicateEntry "x"]⟩ := by
  have h := C7_prop "foo" ⟨some (uintParam "a"), none, true, []⟩ (uintParam "x")
    rfl rfl (Or.inl rfl)
  exact h.trans (by decide)

/-! ### Claim C8 -/

/-- Claim C8: the graphics-root predicate holds iff the function bears the
reserved root name and either has zero parameters, or the target ABI
generation is below the legacy-removal generation, it has exactly one
parameter, and its declared return type is the canonical signed 32-bit integer
type. -/
theorem C8_prop (t : Nat) (FD : FunctionDecl) :
    isGraphicsRootRSFunc t FD = true ↔
      (isRootRSFunc FD = true ∧
        (FD.params.length = 0 ∨
          (t < SLANG_ICS_TARGET_API ∧ FD.params.length = 1 ∧ FD.returnType = intQT))) := by
  unfold isGraphicsRootRSFunc
  repeat' split
  all_goals simp_all

/-! ### Claim C9 -/

/-- Claim C9: if a shape error was recorded during classification (so the
bitmask is left at 0) and the target ABI generation is below the
parameter-skipping generation, the generation-compatibility check fires as
well — 0 is not among its five accepted values — so the "may not skip
parameters" diagnostic is appended after the diagnostics already emitted, for
a function that already failed for an unrelated reason. -/
theorem C9_prop (t : Nat) (n : String) (p0 : Param) (rest : List Param) (ret : QualType)
    (r : VResult)
    (hgate : ¬(t < SLANG_JB_TARGET_API ∧ isRootRSFunc ⟨n, p0 :: rest, ret⟩ = false))
    (hics : t < SLANG_ICS_TARGET_API)
    (hfail : (classifyShape n ret p0 rest).valid = false)
    (h : validateAndConstructParams t ⟨n, p0 :: rest, ret⟩ = some r) :
    r.mSignatureMetadata = 0 ∧ r.valid = false ∧
    r.diags = (classifyShape n ret p0 rest).diags ++ [Diag.mayNotSkipParams n] := by
  have hmeta : metaOf (classifyShape n ret p0 rest) = 0 := by simp [metaOf, hfail]
  have hacc : acceptBitmask t 0 = false := by
    unfold acceptBitmask
    rw [if_pos hics]
    decide
  rcases vacp_inversion t n p0 rest ret r hgate h with ⟨ha, rfl⟩ | ⟨ha, rfl⟩
  · rw [hmeta, hacc] at ha
    cases ha
  · exact ⟨by simpa using hmeta, rfl, rfl⟩

/-- Claim C9 witness: `void root(unsigned int z)` at target API 11 fails the
in-or-out requirement and then additionally receives the "may not skip
parameters" diagnostic. -/
theorem C9_witness :
    rC9.mSignatureMetadata = 0 ∧ rC9.valid = false ∧
    rC9.diags = (classifyShape "root" voidQT (uintParam "z") []).diags ++
      [Diag.mayNotSkipParams "root"] :=
  C9_prop 11 "root" (uintParam "z") [] voidQT rC9
    (by decide) (by decide) (by decide) (by decide)

/-! ### Claim C10 -/

/-- Claim C10: classification requires at least one declared parameter;
`validateAndConstructParams` trips its assertion (modelled as `none`) exactly
on an empty parameter list, and `Create` on a zero-parameter function
propagates the contract violation rather than producing a descriptor or a
user-facing diagnostic. -/
theorem C10_prop (t : Nat) (ex : CType → Bool) (FD : FunctionDecl) :
    (validateAndConstructParams t FD = none ↔ FD.params = []) ∧
    (FD.params = [] → Create t ex FD = none) := by
  obtain ⟨n, ps, ret⟩ := FD
  cases ps with
  | nil =>
    refine ⟨by simp [validateAndConstructParams], fun _ => ?_⟩
    unfold Create
    split
    · rfl
    · simp [validateAndConstructParams]
  | cons p0 rest =>
    refine ⟨?_, by simp⟩
    simp only [validateAndConstructParams]
    constructor
    · intro h
      split at h <;> [cases h; skip]
      split at h <;> cases h
    · intro h
      cases h

/-- Claim C10 witness: the theorem applied to the zero-parameter function
`fdC10`. -/
theorem C10_witness :
    validateAndConstructParams 16 fdC10 = none ∧
    Create 16 exportAlwaysOk fdC10 = none :=
  ⟨(C10_prop 16 exportAlwaysOk fdC10).1.mpr rfl,
   (C10_prop 16 exportAlwaysOk fdC10).2 rfl⟩

end SlangForEach
